import Mathlib

/-!
# Shallow embedding of the spawn session core

This file embeds, in Lean, the concurrent session manager of the `spawn`
repository (`src-tauri/src/pty_manager.rs`, `src-tauri/src/sessions.rs`,
`src-tauri/src/ws_server.rs`, broadcast channel created in
`src-tauri/src/lib.rs`), and proves the specification's claims about it.

Conventions of the embedding:
* the `HashMap<String, PtySession>` registry is an association list whose
  `insert` replaces any previous binding (as `HashMap::insert` does);
* the opaque OS handles (`writer`, `child`, `master`, reader) are natural
  numbers — the core never inspects them, it only passes them to the adapter;
* byte buffers (`Vec<u8>`) are `List Nat`;
* fallible adapter calls (`openpty`, `spawn_command`, `take_writer`,
  `try_clone_reader`, `write_all`, `resize`) are modelled by an adapter
  oracle supplied as an argument, so each theorem quantifies over every
  possible adapter behaviour;
* the blocking output-pump thread is modelled as a function from the trace
  of its `read` results to the final state, since exactly one pump reads a
  given session's stream (the ordering guarantee of §5 of the spec).
-/

namespace Spawn

/-- Byte buffers (`Vec<u8>` in the source). -/
abbrev Bytes := List Nat

/-- `SessionStatus` from `pty_manager.rs`. -/
inductive SessionStatus where
  | Running
  | Idle
  | Stopped
deriving DecidableEq, Repr

/-- `PtySession` from `pty_manager.rs`: the per-session state held in the
registry.  The process handles are opaque adapter handles. -/
structure PtySession where
  id : String
  project_id : String
  status : SessionStatus
  scrollback : Bytes
  writerHandle : Nat
  childHandle : Nat
  masterHandle : Nat
deriving DecidableEq, Repr

/-- The registry contents: `HashMap<String, PtySession>` as an association
list (first binding for a key is the visible one). -/
abbrev Registry := List (String × PtySession)

/-- `HashMap::get` — first binding with the given key. -/
def lookupReg (r : Registry) (id : String) : Option PtySession :=
  (r.find? (fun p => p.1 == id)).map (·.2)

/-- `HashMap::remove`'s effect on the contents: drop every binding of `id`. -/
def eraseReg (r : Registry) (id : String) : Registry :=
  r.filter (fun p => !(p.1 == id))

/-- `HashMap::insert`: the new binding replaces any previous one. -/
def insertReg (r : Registry) (id : String) (s : PtySession) : Registry :=
  (id, s) :: eraseReg r id

/-- `map.get_mut(id)` followed by an in-place update `f` (no-op when the
key is absent, exactly as the `if let Some(s) = map.get_mut(..)` blocks). -/
def mutateReg (r : Registry) (id : String) (f : PtySession → PtySession) : Registry :=
  r.map (fun p => if p.1 == id then (p.1, f p.2) else p)

/-- Number of bindings of `id` in the registry contents. -/
def countKeys (r : Registry) (id : String) : Nat :=
  (r.filter (fun p => p.1 == id)).length

/-! ### Registry lemmas -/

theorem lookupReg_nil (id : String) : lookupReg [] id = none := rfl

theorem lookupReg_cons (p : String × PtySession) (r : Registry) (id : String) :
    lookupReg (p :: r) id = if p.1 == id then some p.2 else lookupReg r id := by
  by_cases h : p.1 == id <;> simp [lookupReg, List.find?, h]

theorem lookupReg_erase (r : Registry) (id id' : String) :
    lookupReg (eraseReg r id) id' = if id' = id then none else lookupReg r id' := by
  induction r with
  | nil => simp [eraseReg, lookupReg]
  | cons p r ih =>
    by_cases hp : p.1 == id
    · have : eraseReg (p :: r) id = eraseReg r id := by
        simp [eraseReg, hp]
      rw [this, ih]
      by_cases h' : id' = id
      · simp [h']
      · simp only [if_neg h', lookupReg_cons]
        have hpid : p.1 = id := by simpa using hp
        have : (p.1 == id') = false := by
          simp [hpid]
          intro hc
          exact h' hc.symm
        simp [this]
    · have : eraseReg (p :: r) id = p :: eraseReg r id := by
        simp [eraseReg, hp]
      rw [this, lookupReg_cons, lookupReg_cons, ih]
      by_cases h' : id' = id
      · subst h'
        simp [hp]
      · simp [h']

theorem lookupReg_insert (r : Registry) (id id' : String) (s : PtySession) :
    lookupReg (insertReg r id s) id' =
      if id' = id then some s else lookupReg r id' := by
  rw [insertReg, lookupReg_cons, lookupReg_erase]
  by_cases h : id' = id
  · subst h; simp
  · have : (id == id') = false := by
      simp
      intro hc
      exact h hc.symm
    simp [this, h]

theorem lookupReg_mutate (r : Registry) (id id' : String) (f : PtySession → PtySession) :
    lookupReg (mutateReg r id f) id' =
      if id' = id then (lookupReg r id').map f else lookupReg r id' := by
  induction r with
  | nil => simp [mutateReg, lookupReg]
  | cons p r ih =>
    by_cases hp : p.1 == id
    · have hpid : p.1 = id := by simpa using hp
      have hm : mutateReg (p :: r) id f = (p.1, f p.2) :: mutateReg r id f := by
        simp only [mutateReg, List.map_cons, if_pos hp]
      rw [hm, lookupReg_cons, lookupReg_cons, ih]
      by_cases h' : id' = id
      · subst h'
        simp [hp, hpid]
      · have : (p.1 == id') = false := by
          simp [hpid]
          intro hc
          exact h' hc.symm
        simp [this, h']
    · have hm : mutateReg (p :: r) id f = p :: mutateReg r id f := by
        simp only [mutateReg, List.map_cons, if_neg hp]
      rw [hm, lookupReg_cons, lookupReg_cons, ih]
      by_cases hq : p.1 == id'
      · have hqid : p.1 = id' := by simpa using hq
        by_cases h' : id' = id
        · subst h'
          simp [hq] at hp
        · simp [hq, h']
      · simp [hq]

theorem eraseReg_of_lookup_none (r : Registry) (id : String)
    (h : lookupReg r id = none) : eraseReg r id = r := by
  induction r with
  | nil => rfl
  | cons p r ih =>
    rw [lookupReg_cons] at h
    by_cases hp : p.1 == id
    · simp [hp] at h
    · have hr : lookupReg r id = none := by simpa [hp] using h
      simp [eraseReg, hp] at *
      exact ih hr

theorem countKeys_insert_self (r : Registry) (id : String) (s : PtySession) :
    countKeys (insertReg r id s) id = 1 := by
  have herase : ∀ (r : Registry), countKeys (eraseReg r id) id = 0 := by
    intro r
    induction r with
    | nil => rfl
    | cons p r ih =>
      by_cases hp : p.1 == id
      · simpa [eraseReg, countKeys, hp] using ih
      · simpa [eraseReg, countKeys, hp] using ih
  simp [insertReg, countKeys] at *
  simpa [countKeys] using herase r

/-! ### PtyManager operations (`pty_manager.rs`) -/

/-- Errors surfaced by the session command surface: `anyhow!("session not
found")` and propagated adapter I/O failures. -/
inductive PtyError where
  | notFound
  | ioError
deriving DecidableEq, Repr

/-- `PtyManager::get_session`: look the session up and copy out
`(status.clone(), scrollback.clone())`. -/
def get_session (r : Registry) (id : String) : Option (SessionStatus × Bytes) :=
  (lookupReg r id).map (fun s => (s.status, s.scrollback))

/-- `PtyManager::kill_session`: `remove(id)` from the map (killing the child
is an adapter side effect whose result is discarded with `let _ =`); a
missing id leaves the map untouched. -/
def kill_session (r : Registry) (id : String) : Registry :=
  eraseReg r id

/-- `PtyManager::write_to_session`: absent id is
`Err(anyhow!("session not found"))`; otherwise `writer.write_all(data)?`,
whose success is decided by the adapter oracle `writeAll` on the session's
writer handle. -/
def write_to_session (r : Registry) (writeAll : Nat → Bytes → Bool)
    (id : String) (data : Bytes) : Except PtyError Unit :=
  match lookupReg r id with
  | none => .error .notFound
  | some s => if writeAll s.writerHandle data then .ok () else .error .ioError

/-- One `master.resize(PtySize { rows, cols, pixel_width: 0, pixel_height: 0 })`
call forwarded to the adapter. -/
structure ResizeCall where
  master : Nat
  rows : Nat
  cols : Nat
  pixel_width : Nat
  pixel_height : Nat
deriving DecidableEq, Repr

/-- `PtyManager::resize_session`: when the id is present, forward one resize
to the adapter (propagating its failure with `?`); when absent, fall through
to `Ok(())` without touching the adapter.  Returns the result together with
the list of adapter calls made. -/
def resize_session (r : Registry) (resizeOk : Nat → Nat → Nat → Bool)
    (id : String) (cols rows : Nat) : Except PtyError Unit × List ResizeCall :=
  match lookupReg r id with
  | none => (.ok (), [])
  | some s =>
      let call : ResizeCall := ⟨s.masterHandle, rows, cols, 0, 0⟩
      if resizeOk s.masterHandle cols rows then (.ok (), [call])
      else (.error .ioError, [call])

/-! ### The PTY process adapter oracle

`spawn_agent`/`spawn_shell` perform four fallible adapter steps in order:
`pty_system.openpty(..)?`, `pair.slave.spawn_command(cmd)?`,
`pair.master.take_writer()?`, `pair.master.try_clone_reader()?`.  The
oracle fixes the outcome of each step; handles are opaque numbers. -/

structure Adapter where
  /-- `openpty` result: `(slave, master)` handles on success. -/
  openpty : Except Unit (Nat × Nat)
  /-- `slave.spawn_command(cmd)` result: child handle on success. -/
  spawn_command : Except Unit Nat
  /-- `master.take_writer()` result: writer handle on success. -/
  take_writer : Except Unit Nat
  /-- `master.try_clone_reader()` result: reader handle on success. -/
  try_clone_reader : Except Unit Nat

/-- All four adapter steps of a spawn succeed. -/
def adapterOk (a : Adapter) : Bool :=
  a.openpty.toBool && a.spawn_command.toBool &&
    a.take_writer.toBool && a.try_clone_reader.toBool

/-- `SpawnError`: the OS could not allocate the pseudo-terminal or exec the
command (any of the four `?` steps failed). -/
inductive SpawnErr where
  | spawnError
deriving DecidableEq, Repr

/-- Everything a `spawn_agent`/`spawn_shell` call produces: the returned
`Result`, the registry afterwards, whether the output-pump task was
spawned, whether a child process was actually created, and the command
handed to `CommandBuilder` (with its arguments). -/
structure SpawnOutcome where
  result : Except SpawnErr String
  registry : Registry
  pumpStarted : Bool
  childSpawned : Bool
  commandUsed : Option (String × List String)
deriving Repr

/-- `PtyManager::spawn_agent`: run the four adapter steps; each failure
returns early (`?`) with the registry untouched and no pump task spawned.
On success, spawn the pump task and insert a fresh session
`{ id, project_id, status: Running, scrollback: vec![] }` with the adapter
handles. -/
def spawn_agent (r : Registry) (a : Adapter) (session_id project_id : String)
    (_project_path command : String) (args : List String) : SpawnOutcome :=
  match a.openpty with
  | .error _ => ⟨.error .spawnError, r, false, false, none⟩
  | .ok (_slave, master) =>
    match a.spawn_command with
    | .error _ => ⟨.error .spawnError, r, false, false, some (command, args)⟩
    | .ok child =>
      match a.take_writer with
      | .error _ => ⟨.error .spawnError, r, false, true, some (command, args)⟩
      | .ok writer =>
        match a.try_clone_reader with
        | .error _ => ⟨.error .spawnError, r, false, true, some (command, args)⟩
        | .ok _reader =>
          let session : PtySession :=
            { id := session_id, project_id := project_id,
              status := .Running, scrollback := [],
              writerHandle := writer, childHandle := child,
              masterHandle := master }
          ⟨.ok session_id, insertReg r session_id session, true, true,
            some (command, args)⟩

/-- The shell command chosen by `spawn_shell`:
`std::env::var("SHELL").unwrap_or_else(|_| "/bin/bash".to_string())`. -/
def shellCommand (envShell : Option String) : String :=
  envShell.getD "/bin/bash"

/-- `PtyManager::spawn_shell`: identical to `spawn_agent` except the command
is the `SHELL` environment variable (falling back to `/bin/bash`), there are
no arguments, and the inserted session's `project_id` is the empty string. -/
def pty_spawn_shell (r : Registry) (a : Adapter) (envShell : Option String)
    (session_id : String) (_cwd : String) : SpawnOutcome :=
  match a.openpty with
  | .error _ => ⟨.error .spawnError, r, false, false, none⟩
  | .ok (_slave, master) =>
    let shell := shellCommand envShell
    match a.spawn_command with
    | .error _ => ⟨.error .spawnError, r, false, false, some (shell, [])⟩
    | .ok child =>
      match a.take_writer with
      | .error _ => ⟨.error .spawnError, r, false, true, some (shell, [])⟩
      | .ok writer =>
        match a.try_clone_reader with
        | .error _ => ⟨.error .spawnError, r, false, true, some (shell, [])⟩
        | .ok _reader =>
          let session : PtySession :=
            { id := session_id, project_id := "",
              status := .Running, scrollback := [],
              writerHandle := writer, childHandle := child,
              masterHandle := master }
          ⟨.ok session_id, insertReg r session_id session, true, true,
            some (shell, [])⟩

/-! ### Output pump (the `spawn_blocking` closure in `pty_manager.rs`)

Exactly one pump reads a given session's stream, so the pump is a function
of its trace of `reader.read` results.  State threaded through it: the
registry, the list of messages published to the broadcast hub (`output_tx`),
and the list of `"session-exited"` events emitted to the app handle. -/

/-- One result of `reader.read(&mut buf)`: `Ok(n)` with `n > 0` yields the
chunk `buf[..n]`, `Ok(0)` is end of stream, `Err(_)` is a read error. -/
inductive ReadResult where
  | chunk (data : Bytes)
  | eofRead
  | errRead
deriving DecidableEq, Repr

/-- The state the pump interacts with. -/
structure PumpState where
  registry : Registry
  hub : List (String × Bytes)
  emitted : List String
deriving Repr

/-- The `Ok(n)` arm of the pump loop: `output_tx.send((sid, data))` (result
discarded — absent subscribers are not an error), then append the identical
bytes to the session's scrollback under the lock, a no-op if the session
was removed meanwhile. -/
def pumpChunk (st : PumpState) (sid : String) (data : Bytes) : PumpState :=
  { st with
      hub := st.hub ++ [(sid, data)]
      registry := mutateReg st.registry sid
        (fun s => { s with scrollback := s.scrollback ++ data }) }

/-- The code after the pump loop breaks: under the lock, if the session is
still present set its status to `Stopped` and record `natural_exit = true`;
then emit `"session-exited"` exactly when `natural_exit` held. -/
def pumpFinish (st : PumpState) (sid : String) : PumpState :=
  match lookupReg st.registry sid with
  | some _ =>
      { st with
          registry := mutateReg st.registry sid
            (fun s => { s with status := .Stopped })
          emitted := st.emitted ++ [sid] }
  | none => st

/-- The pump loop over a trace of read results: process chunks until the
first `Ok(0)` or `Err(_)`, which breaks the loop. -/
def pumpLoop (st : PumpState) (sid : String) : List ReadResult → PumpState
  | [] => st
  | .chunk d :: rest => pumpLoop (pumpChunk st sid d) sid rest
  | .eofRead :: _ => st
  | .errRead :: _ => st

/-- A complete pump run: the loop over the whole read trace, then the
stream-end epilogue. -/
def pumpRun (st : PumpState) (sid : String) (reads : List ReadResult) : PumpState :=
  pumpFinish (pumpLoop st sid reads) sid

/-! ### Session command layer (`sessions.rs`) -/

/-- The durable-store row `AgentSession` (external collaborator; only the
fields `get_scrollback`'s fallback reads matter to this core). -/
structure AgentSession where
  id : String
  project_id : String
  name : Option String
  status : String
  scrollback : Option String
  created_at : Int
  updated_at : Int

/-- `String::into_bytes`: the UTF-8 bytes of the string, as naturals. -/
def strBytes (s : String) : Bytes :=
  (s.data.flatMap String.utf8EncodeChar).map (fun b => b.toNat)

/-- The `spawn_shell` command's view of the world: the live registry plus a
counter of child processes successfully created by the adapter (used to
state "no second process has been spawned"). -/
structure SysState where
  registry : Registry
  spawnCount : Nat
deriving Repr

/-- The `spawn_shell` Tauri command: a no-op returning `Ok(())` when
`pty.get_session(id)` is `Some`; otherwise delegate to
`PtyManager::spawn_shell`, mapping its error to a string. -/
def cmd_spawn_shell (st : SysState) (a : Adapter) (envShell : Option String)
    (session_id project_path : String) : SysState × Except String Unit :=
  if (get_session st.registry session_id).isSome then (st, .ok ())
  else
    let out := pty_spawn_shell st.registry a envShell session_id project_path
    (⟨out.registry, st.spawnCount + (if out.childSpawned then 1 else 0)⟩,
      match out.result with
      | .ok _ => .ok ()
      | .error _ => .error "spawn failed")

/-- The `get_scrollback` Tauri command: the in-memory scrollback when the
session is live in the PTY manager; otherwise the durable store's
`scrollback` text (`unwrap_or_default().into_bytes()` — empty when the row
or its scrollback is missing). -/
def cmd_get_scrollback (r : Registry) (db : String → Option AgentSession)
    (session_id : String) : Bytes :=
  match get_session r session_id with
  | some (_, scrollback) => scrollback
  | none => strBytes ((((db session_id).bind (fun s => s.scrollback)).getD ""))

/-! ### Broadcast hub and relay client loop (`ws_server.rs`, `lib.rs`)

The hub is `tokio::sync::broadcast::channel(1024)` (created in `lib.rs`) —
an external component, modelled here by its documented contract: the channel
retains the newest `capacity` messages; a receiver further behind than that
observes `RecvError::Lagged(missed)` and is advanced to the oldest message
still retained; a receiver that is caught up sees `RecvError::Closed` once
every sender is dropped.  The per-client loop `handle_socket` is embedded
directly from the source. -/

/-- Capacity of the broadcast channel, from
`tokio::sync::broadcast::channel(1024)` in `lib.rs`. -/
def hubCapacity : Nat := 1024

/-- The hub's history: every `(session_id, data)` message ever sent, and
whether all senders are gone. -/
structure HubState where
  sent : List (String × Bytes)
  closed : Bool

/-- A subscriber's receive cursor: the index of the next message it would
receive. -/
structure HubReceiver where
  next : Nat
deriving DecidableEq, Repr

/-- Outcome of one completed `rx.recv()` call. -/
inductive RecvOutcome where
  | okMsg (msg : String × Bytes)
  | lagged (missed : Nat)
  | closedRecv
deriving DecidableEq, Repr

/-- One completed `rx.recv()` against the hub, per the broadcast channel's
contract; `none` when the call would still be pending (no message, channel
open). -/
def hubRecv (h : HubState) (r : HubReceiver) : Option (RecvOutcome × HubReceiver) :=
  if h.sent.length > r.next + hubCapacity then
    some (.lagged (h.sent.length - hubCapacity - r.next),
      ⟨h.sent.length - hubCapacity⟩)
  else if hlt : r.next < h.sent.length then
    some (.okMsg (h.sent.get ⟨r.next, hlt⟩), ⟨r.next + 1⟩)
  else if h.closed then
    some (.closedRecv, r)
  else
    none

/-- One completed arm of the `tokio::select!` in `handle_socket`: either the
hub receive finished, or `socket.recv()` yielded a client frame
(`isClose = true` for `Message::Close`), or the socket stream ended
(`None`). -/
inductive ClientEvent where
  | hubMsg (o : RecvOutcome)
  | clientFrame (isClose : Bool)
  | clientGone
deriving Repr

/-- What the loop body does next. -/
inductive LoopAction where
  | goOn
  | exitLoop
deriving DecidableEq, Repr

/-- The body of the `loop` in `handle_socket`, one iteration: forward an
`Ok((session_id, data))` as a `TerminalOutput` frame and break only when the
socket send fails; `Lagged(_)` is `continue`; `Closed` breaks; a client
`Close` frame or stream end breaks; any other client frame is ignored. -/
def clientStep (sendOk : Bool) (e : ClientEvent) : LoopAction :=
  match e with
  | .hubMsg (.okMsg _) => if sendOk then .goOn else .exitLoop
  | .hubMsg (.lagged _) => .goOn
  | .hubMsg .closedRecv => .exitLoop
  | .clientFrame isClose => if isClose then .exitLoop else .goOn
  | .clientGone => .exitLoop

/-- The guard of the `spawn_shell` command: a bound id makes the whole call
a successful no-op. -/
theorem cmd_spawn_shell_present (st : SysState) (a : Adapter)
    (envShell : Option String) (id path : String) (s : PtySession)
    (h : lookupReg st.registry id = some s) :
    cmd_spawn_shell st a envShell id path = (st, .ok ()) := by
  simp [cmd_spawn_shell, get_session, h]

/-! ### Sample concrete values for instantiating theorems -/

/-- An adapter on which every step succeeds. -/
def sampleAdapter : Adapter :=
  { openpty := .ok (1, 2), spawn_command := .ok 3,
    take_writer := .ok 4, try_clone_reader := .ok 5 }

/-- An adapter whose `openpty` fails. -/
def failingAdapter : Adapter :=
  { openpty := .error (), spawn_command := .error (),
    take_writer := .error (), try_clone_reader := .error () }

/-- A running session for sample registries. -/
def sampleRunning : PtySession :=
  { id := "s", project_id := "p", status := .Running, scrollback := [],
    writerHandle := 4, childHandle := 3, masterHandle := 2 }

/-- A stopped session for sample registries. -/
def sampleStopped : PtySession :=
  { sampleRunning with status := .Stopped }

/-! ### Claim theorems -/

/-- C5: for a session id that was never spawned (absent from the live
registry and from the durable store), `get_scrollback` returns an empty
byte result, `write` returns a `NotFound` error, and `kill` is a silent
no-op leaving the registry — and hence its size — unchanged. -/
theorem never_spawned_ops (r : Registry) (db : String → Option AgentSession)
    (writeAll : Nat → Bytes → Bool) (id : String) (data : Bytes)
    (hreg : lookupReg r id = none) (hdb : db id = none) :
    cmd_get_scrollback r db id = []
      ∧ write_to_session r writeAll id data = .error .notFound
      ∧ kill_session r id = r
      ∧ (kill_session r id).length = r.length := by
  have hk : kill_session r id = r := eraseReg_of_lookup_none r id hreg
  refine ⟨?_, ?_, hk, by rw [hk]⟩
  · simp [cmd_get_scrollback, get_session, hreg, hdb]
    decide
  · simp [write_to_session, hreg]

/-- Witness for C5 at the empty registry and empty store. -/
theorem never_spawned_ops_witness :
    cmd_get_scrollback [] (fun _ => none) "s" = []
      ∧ write_to_session [] (fun _ _ => true) "s" [1] = .error .notFound
      ∧ kill_session [] "s" = ([] : Registry)
      ∧ (kill_session [] "s").length = ([] : Registry).length :=
  never_spawned_ops [] (fun _ => none) (fun _ _ => true) "s" [1] rfl rfl

/-- C8: `resize` on an id absent from the registry raises no fault — it
returns success having made no adapter call; the adapter is reached only
when the session is present. -/
theorem resize_absent_noop (r : Registry) (resizeOk : Nat → Nat → Nat → Bool)
    (id : String) (cols rows : Nat) :
    (lookupReg r id = none →
      resize_session r resizeOk id cols rows = (.ok (), []))
    ∧ (∀ c, c ∈ (resize_session r resizeOk id cols rows).2 →
        (lookupReg r id).isSome = true) := by
  constructor
  · intro h
    simp [resize_session, h]
  · intro c hc
    cases hl : lookupReg r id with
    | none => simp [resize_session, hl] at hc
    | some s => simp

/-- Witness for C8: resizing a never-spawned id succeeds with no adapter
call. -/
theorem resize_absent_noop_witness :
    resize_session [] (fun _ _ _ => true) "s" 80 24 = (.ok (), []) :=
  (resize_absent_noop [] (fun _ _ _ => true) "s" 80 24).1 rfl

/-- C10: the `spawn_shell` command's no-op guard tests only presence in the
registry, not liveness: when the id is bound to a session whose status is
`Stopped`, the call still returns success without touching the state (no
new process is spawned and the stopped session stays in place). -/
theorem spawn_shell_stopped_noop (st : SysState) (a : Adapter)
    (envShell : Option String) (id path : String) (s : PtySession)
    (hs : lookupReg st.registry id = some s) (_hst : s.status = .Stopped) :
    cmd_spawn_shell st a envShell id path = (st, .ok ()) := by
  simp [cmd_spawn_shell, get_session, hs]

/-- Witness for C10 on a registry holding one stopped session. -/
theorem spawn_shell_stopped_noop_witness :
    cmd_spawn_shell ⟨[("s", sampleStopped)], 1⟩ failingAdapter none "s" "/tmp"
      = (⟨[("s", sampleStopped)], 1⟩, .ok ()) :=
  spawn_shell_stopped_noop ⟨[("s", sampleStopped)], 1⟩ failingAdapter none
    "s" "/tmp" sampleStopped (by decide) (by decide)

/-- C9: `spawn_shell` runs the command named by the `SHELL` environment
variable, falling back to `/bin/bash` when it is unset, with no arguments;
on success the inserted session has an empty `project_id`, status
`Running`, and empty scrollback. -/
theorem pty_spawn_shell_fields (r : Registry) (a : Adapter)
    (envShell : Option String) (id cwd : String) (sl ms ch wr rd : Nat)
    (hop : a.openpty = .ok (sl, ms)) (hsp : a.spawn_command = .ok ch)
    (hw : a.take_writer = .ok wr) (hrd : a.try_clone_reader = .ok rd) :
    (pty_spawn_shell r a envShell id cwd).result = .ok id
      ∧ (pty_spawn_shell r a envShell id cwd).commandUsed
          = some (envShell.getD "/bin/bash", [])
      ∧ lookupReg (pty_spawn_shell r a envShell id cwd).registry id =
          some { id := id, project_id := "", status := .Running,
                 scrollback := [], writerHandle := wr, childHandle := ch,
                 masterHandle := ms } := by
  simp [pty_spawn_shell, hop, hsp, hw, hrd, shellCommand, lookupReg_insert]

/-- Witness for C9 with `SHELL` unset: the command used is `/bin/bash` and
the inserted session is an unowned running shell with empty scrollback. -/
theorem pty_spawn_shell_fields_witness :
    (pty_spawn_shell [] sampleAdapter none "s" "/tmp").result = .ok "s"
      ∧ (pty_spawn_shell [] sampleAdapter none "s" "/tmp").commandUsed
          = some ((none : Option String).getD "/bin/bash", [])
      ∧ lookupReg (pty_spawn_shell [] sampleAdapter none "s" "/tmp").registry "s" =
          some { id := "s", project_id := "", status := .Running,
                 scrollback := [], writerHandle := 4, childHandle := 3,
                 masterHandle := 2 } :=
  pty_spawn_shell_fields [] sampleAdapter none "s" "/tmp" 1 2 3 4 5
    rfl rfl rfl rfl

/-- C4: when any of the four adapter steps of `spawn_agent` fails
(pseudo-terminal allocation, command exec, writer or reader acquisition),
the call returns a `SpawnError`, the registry is unchanged, and no output
pump is started. -/
theorem spawn_agent_failure (r : Registry) (a : Adapter)
    (sid pid path command : String) (args : List String)
    (hfail : adapterOk a = false) :
    (spawn_agent r a sid pid path command args).result = .error .spawnError
      ∧ (spawn_agent r a sid pid path command args).registry = r
      ∧ (spawn_agent r a sid pid path command args).pumpStarted = false := by
  cases hop : a.openpty with
  | error e => simp [spawn_agent, hop]
  | ok pr =>
    cases hsp : a.spawn_command with
    | error e => cases pr; simp [spawn_agent, hop, hsp]
    | ok ch =>
      cases hw : a.take_writer with
      | error e => cases pr; simp [spawn_agent, hop, hsp, hw]
      | ok wr =>
        cases hrd : a.try_clone_reader with
        | error e => cases pr; simp [spawn_agent, hop, hsp, hw, hrd]
        | ok rd =>
          exfalso
          simp [adapterOk, hop, hsp, hw, hrd, Except.toBool] at hfail

/-- Witness for C4 on an adapter whose `openpty` fails. -/
theorem spawn_agent_failure_witness :
    (spawn_agent [] failingAdapter "s" "p" "/tmp" "claude" []).result
        = .error .spawnError
      ∧ (spawn_agent [] failingAdapter "s" "p" "/tmp" "claude" []).registry = []
      ∧ (spawn_agent [] failingAdapter "s" "p" "/tmp" "claude" []).pumpStarted
        = false :=
  spawn_agent_failure [] failingAdapter "s" "p" "/tmp" "claude" [] rfl

/-- C1: a relay subscriber behind the hub by more than the capacity sees a
`Lagged` receive, upon which the loop body continues (never exits), the
missed gap is discarded by advancing the cursor to the oldest retained
message, and the very next receive succeeds with a message again — lag is
lossy but recoverable and never terminates the connection. -/
theorem lag_recoverable (h : HubState) (r : HubReceiver) (sendOk : Bool)
    (hlag : h.sent.length > r.next + hubCapacity) :
    ∃ n, hubRecv h r = some (.lagged n, ⟨h.sent.length - hubCapacity⟩)
      ∧ clientStep sendOk (.hubMsg (.lagged n)) = .goOn
      ∧ ∃ (hi : h.sent.length - hubCapacity < h.sent.length),
          hubRecv h ⟨h.sent.length - hubCapacity⟩ =
            some (.okMsg (h.sent.get ⟨h.sent.length - hubCapacity, hi⟩),
              ⟨h.sent.length - hubCapacity + 1⟩) := by
  refine ⟨h.sent.length - hubCapacity - r.next, ?_, rfl, ?_⟩
  · simp [hubRecv, hlag]
  · have hcap : (0 : Nat) < hubCapacity := by simp [hubCapacity]
    have hlen : hubCapacity < h.sent.length :=
      lt_of_le_of_lt (Nat.le_add_left _ _) hlag
    have hi : h.sent.length - hubCapacity < h.sent.length :=
      Nat.sub_lt (lt_trans hcap hlen) hcap
    refine ⟨hi, ?_⟩
    have hnolag : ¬ h.sent.length > h.sent.length - hubCapacity + hubCapacity := by
      rw [Nat.sub_add_cancel (le_of_lt hlen)]
      exact lt_irrefl _
    simp [hubRecv, hnolag, hi]

set_option maxRecDepth 16384 in
/-- Witness for C1: a fresh subscriber against a hub that has already sent
1026 messages (capacity 1024) lags, continues, and recovers at index 2. -/
theorem lag_recoverable_witness :
    ∃ n, hubRecv ⟨List.replicate 1026 ("s", [7]), false⟩ ⟨0⟩
          = some (.lagged n, ⟨(List.replicate 1026 (("s" : String), ([7] : Bytes))).length - hubCapacity⟩)
      ∧ clientStep true (.hubMsg (.lagged n)) = .goOn
      ∧ ∃ (hi : (List.replicate 1026 (("s" : String), ([7] : Bytes))).length - hubCapacity
              < (List.replicate 1026 (("s" : String), ([7] : Bytes))).length),
          hubRecv ⟨List.replicate 1026 ("s", [7]), false⟩
              ⟨(List.replicate 1026 (("s" : String), ([7] : Bytes))).length - hubCapacity⟩ =
            some (.okMsg ((List.replicate 1026 (("s" : String), ([7] : Bytes))).get
                ⟨(List.replicate 1026 (("s" : String), ([7] : Bytes))).length - hubCapacity, hi⟩),
              ⟨(List.replicate 1026 (("s" : String), ([7] : Bytes))).length - hubCapacity + 1⟩) :=
  lag_recoverable ⟨List.replicate 1026 ("s", [7]), false⟩ ⟨0⟩ true
    (by simp [hubCapacity])

/-- C2: calling the `spawn_shell` command twice in succession with the same
id, starting from a state where the id is unbound and with a functioning
adapter, yields success both times, spawns exactly one child process,
leaves exactly one live (`Running`) session under that id, and the second
call changes nothing. -/
theorem spawn_shell_idempotent (st : SysState) (a : Adapter)
    (envShell : Option String) (id path : String) (sl ms ch wr rd : Nat)
    (hop : a.openpty = .ok (sl, ms)) (hsp : a.spawn_command = .ok ch)
    (hw : a.take_writer = .ok wr) (hrd : a.try_clone_reader = .ok rd)
    (hfresh : lookupReg st.registry id = none) :
    (cmd_spawn_shell st a envShell id path).2 = .ok ()
      ∧ (cmd_spawn_shell (cmd_spawn_shell st a envShell id path).1
            a envShell id path).2 = .ok ()
      ∧ (cmd_spawn_shell (cmd_spawn_shell st a envShell id path).1
            a envShell id path).1 = (cmd_spawn_shell st a envShell id path).1
      ∧ countKeys (cmd_spawn_shell (cmd_spawn_shell st a envShell id path).1
            a envShell id path).1.registry id = 1
      ∧ (∃ s, lookupReg (cmd_spawn_shell (cmd_spawn_shell st a envShell id path).1
            a envShell id path).1.registry id = some s ∧ s.status = .Running)
      ∧ (cmd_spawn_shell (cmd_spawn_shell st a envShell id path).1
            a envShell id path).1.spawnCount = st.spawnCount + 1 := by
  have h1 : cmd_spawn_shell st a envShell id path =
      (⟨insertReg st.registry id
          { id := id, project_id := "", status := .Running, scrollback := [],
            writerHandle := wr, childHandle := ch, masterHandle := ms },
        st.spawnCount + 1⟩, .ok ()) := by
    simp [cmd_spawn_shell, get_session, hfresh, pty_spawn_shell, hop, hsp,
      hw, hrd]
  have hlook : lookupReg (cmd_spawn_shell st a envShell id path).1.registry id =
      some { id := id, project_id := "", status := .Running, scrollback := [],
             writerHandle := wr, childHandle := ch, masterHandle := ms } := by
    rw [h1]
    simp [lookupReg_insert]
  have h2 : cmd_spawn_shell (cmd_spawn_shell st a envShell id path).1
      a envShell id path = ((cmd_spawn_shell st a envShell id path).1, .ok ()) :=
    cmd_spawn_shell_present _ a envShell id path _ hlook
  refine ⟨by rw [h1], by rw [h2], by rw [h2], ?_, ?_, ?_⟩
  · rw [h2, h1]
    exact countKeys_insert_self _ _ _
  · rw [h2]
    exact ⟨_, hlook, rfl⟩
  · rw [h2, h1]

/-- Witness for C2 from the empty state with a working adapter. -/
theorem spawn_shell_idempotent_witness :
    (cmd_spawn_shell ⟨[], 0⟩ sampleAdapter none "s1" "/tmp").2 = .ok ()
      ∧ (cmd_spawn_shell (cmd_spawn_shell ⟨[], 0⟩ sampleAdapter none "s1" "/tmp").1
            sampleAdapter none "s1" "/tmp").2 = .ok ()
      ∧ (cmd_spawn_shell (cmd_spawn_shell ⟨[], 0⟩ sampleAdapter none "s1" "/tmp").1
            sampleAdapter none "s1" "/tmp").1
          = (cmd_spawn_shell ⟨[], 0⟩ sampleAdapter none "s1" "/tmp").1
      ∧ countKeys (cmd_spawn_shell
            (cmd_spawn_shell ⟨[], 0⟩ sampleAdapter none "s1" "/tmp").1
            sampleAdapter none "s1" "/tmp").1.registry "s1" = 1
      ∧ (∃ s, lookupReg (cmd_spawn_shell
            (cmd_spawn_shell ⟨[], 0⟩ sampleAdapter none "s1" "/tmp").1
            sampleAdapter none "s1" "/tmp").1.registry "s1" = some s
          ∧ s.status = .Running)
      ∧ (cmd_spawn_shell (cmd_spawn_shell ⟨[], 0⟩ sampleAdapter none "s1" "/tmp").1
            sampleAdapter none "s1" "/tmp").1.spawnCount = 0 + 1 :=
  spawn_shell_idempotent ⟨[], 0⟩ sampleAdapter none "s1" "/tmp" 1 2 3 4 5
    rfl rfl rfl rfl rfl

/-- C6: after the pump reads chunks `b1` then `b2` of a session whose
scrollback was empty, `get_scrollback` of that session yields `b1 ++ b2`
in that order, and the messages published to the hub carry exactly those
bytes, in the same order, identical to what was appended. -/
theorem pump_chunks_order (st : PumpState) (sid : String) (s : PtySession)
    (b1 b2 : Bytes) (hs : lookupReg st.registry sid = some s)
    (hsb : s.scrollback = []) :
    get_session (pumpChunk (pumpChunk st sid b1) sid b2).registry sid
        = some (s.status, b1 ++ b2)
      ∧ (pumpChunk (pumpChunk st sid b1) sid b2).hub
        = st.hub ++ [(sid, b1), (sid, b2)] := by
  constructor
  · simp [pumpChunk, get_session, lookupReg_mutate, hs, hsb]
  · simp [pumpChunk]

/-- Witness for C6: the sample running session accumulates `[1] ++ [2, 3]`
and the hub receives the identical chunks in order. -/
theorem pump_chunks_order_witness :
    get_session (pumpChunk (pumpChunk ⟨[("s", sampleRunning)], [], []⟩ "s" [1])
        "s" [2, 3]).registry "s" = some (sampleRunning.status, [1] ++ [2, 3])
      ∧ (pumpChunk (pumpChunk ⟨[("s", sampleRunning)], [], []⟩ "s" [1])
          "s" [2, 3]).hub = [] ++ [("s", [1]), ("s", [2, 3])] :=
  pump_chunks_order ⟨[("s", sampleRunning)], [], []⟩ "s" sampleRunning
    [1] [2, 3] (by decide) rfl

/-- The pump loop emits nothing: only the epilogue can emit. -/
theorem pumpLoop_emitted (st : PumpState) (sid : String)
    (reads : List ReadResult) :
    (pumpLoop st sid reads).emitted = st.emitted := by
  induction reads generalizing st with
  | nil => rfl
  | cons rr rest ih =>
    cases rr with
    | chunk d => simpa [pumpLoop, pumpChunk] using ih (pumpChunk st sid d)
    | eofRead => rfl
    | errRead => rfl

/-- The pump loop never inserts or removes the session: presence of the id
is invariant across it. -/
theorem pumpLoop_lookup_isSome (st : PumpState) (sid : String)
    (reads : List ReadResult) :
    (lookupReg (pumpLoop st sid reads).registry sid).isSome
      = (lookupReg st.registry sid).isSome := by
  induction reads generalizing st with
  | nil => rfl
  | cons rr rest ih =>
    cases rr with
    | chunk d =>
      have hstep : (lookupReg (pumpChunk st sid d).registry sid).isSome
          = (lookupReg st.registry sid).isSome := by
        simp [pumpChunk, lookupReg_mutate]
      calc (lookupReg (pumpLoop (pumpChunk st sid d) sid rest).registry sid).isSome
          = (lookupReg (pumpChunk st sid d).registry sid).isSome :=
            ih (pumpChunk st sid d)
        _ = (lookupReg st.registry sid).isSome := hstep
    | eofRead => rfl
    | errRead => rfl

/-- C3: at stream end the pump sets the session's status to `Stopped` when
it is still registered (a no-op when already removed), and emits the
one-shot `"session-exited"` notification exactly when the session was still
present — hence exactly once over a whole natural-exit run, and never after
an explicit kill has removed the session. -/
theorem pump_exit_notification (st : PumpState) (sid : String) :
    ((lookupReg st.registry sid).isSome = true →
        (pumpFinish st sid).emitted = st.emitted ++ [sid]
          ∧ get_session (pumpFinish st sid).registry sid
              = (get_session st.registry sid).map
                  (fun p => (SessionStatus.Stopped, p.2)))
      ∧ (lookupReg st.registry sid = none → pumpFinish st sid = st)
      ∧ (pumpFinish { st with registry := kill_session st.registry sid }
            sid).emitted = st.emitted
      ∧ (∀ reads, (pumpRun st sid reads).emitted =
          if (lookupReg st.registry sid).isSome then st.emitted ++ [sid]
          else st.emitted) := by
  refine ⟨?_, ?_, ?_, ?_⟩
  · intro hsome
    cases hl : lookupReg st.registry sid with
    | none => rw [hl] at hsome; simp at hsome
    | some s =>
      constructor
      · simp [pumpFinish, hl]
      · simp [pumpFinish, hl, get_session, lookupReg_mutate]
  · intro hnone
    simp [pumpFinish, hnone]
  · have hkill : lookupReg (kill_session st.registry sid) sid = none := by
      simp [kill_session, lookupReg_erase]
    simp [pumpFinish, hkill]
  · intro reads
    have hemit := pumpLoop_emitted st sid reads
    have hsome := pumpLoop_lookup_isSome st sid reads
    cases hl : lookupReg (pumpLoop st sid reads).registry sid with
    | none =>
      have : (lookupReg st.registry sid).isSome = false := by
        rw [← hsome, hl]; rfl
      simp [pumpRun, pumpFinish, hl, hemit, this]
    | some s =>
      have : (lookupReg st.registry sid).isSome = true := by
        rw [← hsome, hl]; rfl
      simp [pumpRun, pumpFinish, hl, hemit, this]

/-- Witness for C3: a natural exit of the sample running session stops it
and emits exactly one notification; after a kill, nothing is emitted. -/
theorem pump_exit_notification_witness :
    ((pumpFinish ⟨[("s", sampleRunning)], [], []⟩ "s").emitted = [] ++ ["s"]
        ∧ get_session (pumpFinish ⟨[("s", sampleRunning)], [], []⟩ "s").registry "s"
            = (get_session [("s", sampleRunning)] "s").map
                (fun p => (SessionStatus.Stopped, p.2)))
      ∧ (pumpFinish ⟨kill_session [("s", sampleRunning)] "s", [], []⟩ "s").emitted
          = [] := by
  have h := pump_exit_notification (⟨[("s", sampleRunning)], [], []⟩ : PumpState) "s"
  exact ⟨h.1 (by decide), h.2.2.1⟩

/-! ### The operation surface as one type, for the status-monotonicity
invariant -/

/-- Every core operation that can touch the registry. -/
inductive Op where
  | opGet (id : String)
  | opKill (id : String)
  | opWrite (id : String) (data : Bytes)
  | opResize (id : String) (cols rows : Nat)
  | opSpawnAgent (a : Adapter) (id pid path command : String) (args : List String)
  | opSpawnShellCmd (a : Adapter) (envShell : Option String) (id path : String)
  | opPumpChunk (sid : String) (data : Bytes)
  | opPumpFinish (sid : String)

/-- The registry after one operation.  `get`/`write`/`resize` read the map
or talk to the adapter but never change the contents. -/
def applyOp (r : Registry) : Op → Registry
  | .opGet _ => r
  | .opKill id => kill_session r id
  | .opWrite _ _ => r
  | .opResize _ _ _ => r
  | .opSpawnAgent a id pid path command args =>
      (spawn_agent r a id pid path command args).registry
  | .opSpawnShellCmd a envShell id path =>
      (cmd_spawn_shell ⟨r, 0⟩ a envShell id path).1.registry
  | .opPumpChunk sid data => (pumpChunk ⟨r, [], []⟩ sid data).registry
  | .opPumpFinish sid => (pumpFinish ⟨r, [], []⟩ sid).registry

/-- Well-formed use of the surface: `spawn_agent` is only ever called with a
freshly generated id (the surrounding command creates it as a new UUID);
every other operation is unconstrained. -/
def opFresh (r : Registry) : Op → Prop
  | .opSpawnAgent _ id _ _ _ _ => lookupReg r id = none
  | _ => True

/-- C7: status transitions are monotonic.  Under any core operation, an
already-registered session's status is either untouched or set to `Stopped`
(so a `Stopped` session never leaves `Stopped`), and any session the
operation newly creates starts as `Running`. -/
theorem status_monotonic (r : Registry) (op : Op) (hfresh : opFresh r op)
    (id : String) :
    (∀ s s', lookupReg r id = some s →
        lookupReg (applyOp r op) id = some s' →
        s'.status = s.status ∨ s'.status = .Stopped)
      ∧ (∀ s', lookupReg r id = none →
          lookupReg (applyOp r op) id = some s' →
          s'.status = .Running) := by
  cases op with
  | opGet i =>
    refine ⟨fun s s' h1 h2 => ?_, fun s' h1 h2 => ?_⟩
    · simp only [applyOp] at h2; rw [h1] at h2
      exact .inl (by injection h2 with h; rw [← h])
    · simp only [applyOp] at h2; rw [h1] at h2; cases h2
  | opKill i =>
    refine ⟨fun s s' h1 h2 => ?_, fun s' h1 h2 => ?_⟩
    all_goals
      simp only [applyOp, kill_session, lookupReg_erase] at h2
    · by_cases hi : id = i
      · simp [hi] at h2
      · rw [if_neg hi, h1] at h2
        exact .inl (by injection h2 with h; rw [← h])
    · by_cases hi : id = i
      · simp [hi] at h2
      · rw [if_neg hi, h1] at h2; cases h2
  | opWrite i d =>
    refine ⟨fun s s' h1 h2 => ?_, fun s' h1 h2 => ?_⟩
    · simp only [applyOp] at h2; rw [h1] at h2
      exact .inl (by injection h2 with h; rw [← h])
    · simp only [applyOp] at h2; rw [h1] at h2; cases h2
  | opResize i c rw_ =>
    refine ⟨fun s s' h1 h2 => ?_, fun s' h1 h2 => ?_⟩
    · simp only [applyOp] at h2; rw [h1] at h2
      exact .inl (by injection h2 with h; rw [← h])
    · simp only [applyOp] at h2; rw [h1] at h2; cases h2
  | opSpawnAgent a sid pid path command args =>
    have hreg : (spawn_agent r a sid pid path command args).registry = r
        ∨ ∃ session, session.status = .Running
          ∧ (spawn_agent r a sid pid path command args).registry
              = insertReg r sid session := by
      cases hop : a.openpty with
      | error e => exact .inl (by simp [spawn_agent, hop])
      | ok pr =>
        cases pr with
        | mk sl ms =>
          cases hsp : a.spawn_command with
          | error e => exact .inl (by simp [spawn_agent, hop, hsp])
          | ok ch =>
            cases hw : a.take_writer with
            | error e => exact .inl (by simp [spawn_agent, hop, hsp, hw])
            | ok wr =>
              cases hrd : a.try_clone_reader with
              | error e => exact .inl (by simp [spawn_agent, hop, hsp, hw, hrd])
              | ok rd =>
                exact .inr ⟨⟨sid, pid, .Running, [], wr, ch, ms⟩, rfl,
                  by simp [spawn_agent, hop, hsp, hw, hrd]⟩
    refine ⟨fun s s' h1 h2 => ?_, fun s' h1 h2 => ?_⟩
    · simp only [applyOp] at h2
      cases hreg with
      | inl heq =>
        rw [heq, h1] at h2
        exact .inl (by injection h2 with h; rw [← h])
      | inr hins =>
        obtain ⟨session, _hrun, heq⟩ := hins
        rw [heq, lookupReg_insert] at h2
        by_cases hi : id = sid
        · exact absurd h1 (by rw [hi, hfresh]; simp)
        · rw [if_neg hi, h1] at h2
          exact .inl (by injection h2 with h; rw [← h])
    · simp only [applyOp] at h2
      cases hreg with
      | inl heq => rw [heq, h1] at h2; cases h2
      | inr hins =>
        obtain ⟨session, hrun, heq⟩ := hins
        rw [heq, lookupReg_insert] at h2
        by_cases hi : id = sid
        · rw [if_pos hi] at h2
          injection h2 with h; rw [← h]; exact hrun
        · rw [if_neg hi, h1] at h2; cases h2
  | opSpawnShellCmd a envShell sid path =>
    have hreg : (cmd_spawn_shell ⟨r, 0⟩ a envShell sid path).1.registry = r
        ∨ (lookupReg r sid = none
            ∧ ∃ session, session.status = .Running
              ∧ (cmd_spawn_shell ⟨r, 0⟩ a envShell sid path).1.registry
                  = insertReg r sid session) := by
      cases hl : lookupReg r sid with
      | some s =>
        exact .inl (by rw [cmd_spawn_shell_present ⟨r, 0⟩ a envShell sid path s hl])
      | none =>
        cases hop : a.openpty with
        | error e =>
          exact .inl (by
            simp [cmd_spawn_shell, get_session, hl, pty_spawn_shell, hop])
        | ok pr =>
          cases pr with
          | mk sl ms =>
            cases hsp : a.spawn_command with
            | error e =>
              exact .inl (by
                simp [cmd_spawn_shell, get_session, hl, pty_spawn_shell, hop, hsp])
            | ok ch =>
              cases hw : a.take_writer with
              | error e =>
                exact .inl (by
                  simp [cmd_spawn_shell, get_session, hl, pty_spawn_shell, hop,
                    hsp, hw])
              | ok wr =>
                cases hrd : a.try_clone_reader with
                | error e =>
                  exact .inl (by
                    simp [cmd_spawn_shell, get_session, hl, pty_spawn_shell,
                      hop, hsp, hw, hrd])
                | ok rd =>
                  refine .inr ⟨rfl, ⟨sid, "", .Running, [], wr, ch, ms⟩, rfl, ?_⟩
                  simp [cmd_spawn_shell, get_session, hl, pty_spawn_shell,
                    hop, hsp, hw, hrd]
    refine ⟨fun s s' h1 h2 => ?_, fun s' h1 h2 => ?_⟩
    · simp only [applyOp] at h2
      cases hreg with
      | inl heq =>
        rw [heq, h1] at h2
        exact .inl (by injection h2 with h; rw [← h])
      | inr hins =>
        obtain ⟨hnone, session, _hrun, heq⟩ := hins
        rw [heq, lookupReg_insert] at h2
        by_cases hi : id = sid
        · exact absurd h1 (by rw [hi, hnone]; simp)
        · rw [if_neg hi, h1] at h2
          exact .inl (by injection h2 with h; rw [← h])
    · simp only [applyOp] at h2
      cases hreg with
      | inl heq => rw [heq, h1] at h2; cases h2
      | inr hins =>
        obtain ⟨_hnone, session, hrun, heq⟩ := hins
        rw [heq, lookupReg_insert] at h2
        by_cases hi : id = sid
        · rw [if_pos hi] at h2
          injection h2 with h; rw [← h]; exact hrun
        · rw [if_neg hi, h1] at h2; cases h2
  | opPumpChunk sid d =>
    refine ⟨fun s s' h1 h2 => ?_, fun s' h1 h2 => ?_⟩
    · simp only [applyOp, pumpChunk, lookupReg_mutate] at h2
      by_cases hi : id = sid
      · rw [if_pos hi, h1] at h2
        injection h2 with h
        exact .inl (by rw [← h])
      · rw [if_neg hi, h1] at h2
        exact .inl (by injection h2 with h; rw [← h])
    · simp only [applyOp, pumpChunk, lookupReg_mutate] at h2
      by_cases hi : id = sid
      · rw [if_pos hi, h1] at h2; cases h2
      · rw [if_neg hi, h1] at h2; cases h2
  | opPumpFinish sid =>
    refine ⟨fun s s' h1 h2 => ?_, fun s' h1 h2 => ?_⟩
    · simp only [applyOp, pumpFinish] at h2
      cases hl : lookupReg r sid with
      | none =>
        rw [hl] at h2
        simp only at h2
        rw [h1] at h2
        exact .inl (by injection h2 with h; rw [← h])
      | some s0 =>
        rw [hl] at h2
        simp only [lookupReg_mutate] at h2
        by_cases hi : id = sid
        · rw [if_pos hi, h1] at h2
          injection h2 with h
          exact .inr (by rw [← h])
        · rw [if_neg hi, h1] at h2
          exact .inl (by injection h2 with h; rw [← h])
    · simp only [applyOp, pumpFinish] at h2
      cases hl : lookupReg r sid with
      | none =>
        rw [hl] at h2
        simp only at h2
        rw [h1] at h2
        cases h2
      | some s0 =>
        rw [hl] at h2
        simp only [lookupReg_mutate] at h2
        by_cases hi : id = sid
        · rw [← hi, h1] at hl; cases hl
        · rw [if_neg hi, h1] at h2; cases h2

/-- Witness for C7: the pump's stream-end epilogue on the sample running
session yields a `Stopped` status, realising the monotone transition. -/
theorem status_monotonic_witness :
    sampleStopped.status = sampleRunning.status
      ∨ sampleStopped.status = SessionStatus.Stopped :=
  (status_monotonic [("s", sampleRunning)] (.opPumpFinish "s") trivial "s").1
    sampleRunning sampleStopped (by decide) (by decide)

end Spawn
